import Mathlib

/-!
Verification development for the omegga Player feature layer
(`src/omegga/player.js`, `src/util/brick.js`) and metrics database
(`src/webserver/backend/database.js`).

The JavaScript sources are shallowly embedded: JS objects become Lean
structures, JS string-keyed objects become insertion-ordered association
lists, `undefined` becomes `none`, and the asynchronous console-watcher
interface of the Omegga class (which is outside the embedded sources) is
represented by an environment of response functions plus an explicit event
trace of watcher registrations and command writes.
-/

set_option autoImplicit false

/-! ## JavaScript value helpers -/

/-- Truthiness of a JS value that is either a boolean or `undefined` (`none`). -/
def truthy : Option Bool → Bool
  | some b => b
  | none => false

/-- Numeric value of a list of decimal digit characters. -/
def digitsVal (l : List Char) : Nat :=
  l.foldl (fun n c => n * 10 + (c.toNat - 48)) 0

/-- Models JavaScript `Number(s)` (and unary `+s`) coercion for plain decimal
strings: optional sign, digits, at most one decimal point.  `none` stands for
`NaN`; inputs using exponents, hex, `Infinity`, or interior whitespace are not
produced by the engine patterns embedded here and are mapped to `none`. -/
def jsNumberBody (sign : ℚ) (body : List Char) : Option ℚ :=
  let intPart := body.takeWhile (fun c => c != '.')
  let fracPart := (body.dropWhile (fun c => c != '.')).drop 1
  if intPart.all Char.isDigit && fracPart.all Char.isDigit &&
      !(intPart.isEmpty && fracPart.isEmpty) then
    some (sign * ((digitsVal intPart : ℚ) +
      (digitsVal fracPart : ℚ) / ((10 : ℚ) ^ fracPart.length)))
  else none

/-- JavaScript `Number(s)` on a string; the empty string coerces to `0`. -/
def jsNumber (s : String) : Option ℚ :=
  match s.data with
  | [] => some 0
  | '-' :: rest => jsNumberBody (-1) rest
  | '+' :: rest => jsNumberBody 1 rest
  | cs => jsNumberBody 1 cs

/-- JavaScript `Number` applied to a possibly-`undefined` string
(`Number(undefined)` is `NaN`, i.e. `none`). -/
def jsNumberOpt (o : Option String) : Option ℚ :=
  o.bind jsNumber

/-- ASCII model of JavaScript `String.prototype.toLowerCase`. -/
def jsToLowerCase (s : String) : String :=
  ⟨s.data.map Char.toLower⟩

/-- A JS object with boolean-or-`undefined` properties, as an insertion-ordered
association list (the shape of the `permissions` map in `Player.getPermissions`). -/
abbrev PermMap := List (String × Option Bool)

/-- JS property read: `undefined` when the key is absent. -/
def getProp (m : PermMap) (k : String) : Option Bool :=
  match m.find? (fun kv => kv.1 == k) with
  | some kv => kv.2
  | none => none

/-- JS property write: updates the value in place if the key exists (keeping its
position), otherwise appends the key, as JS object assignment does. -/
def setProp (m : PermMap) (k : String) (v : Option Bool) : PermMap :=
  if m.any (fun kv => kv.1 == k) then
    m.map (fun kv => if kv.1 == k then (kv.1, v) else kv)
  else m ++ [(k, v)]

/-- JS `Object.fromEntries` over string/boolean pairs (later entries win,
first occurrence fixes the key position). -/
def fromEntries (l : List (String × Bool)) : PermMap :=
  l.foldl (fun m kv => setProp m kv.1 (some kv.2)) []

/-- Result of JS `Object.freeze`: the value together with the frozen marker that
makes later mutation attempts ineffective. -/
structure FrozenT (α : Type) where
  value : α
  frozen : Bool
deriving DecidableEq, Repr

/-- JS `Object.freeze` sets the frozen marker. -/
def objectFreeze {α : Type} (a : α) : FrozenT α :=
  ⟨a, true⟩

/-- JS array indexing by a string key (`arr[s]`): only a canonical decimal
numeral is treated as an array index; anything else reads an absent property. -/
def jsArrayGet (l : List String) (s : String) : Option String :=
  match s.toNat? with
  | some n => if toString n == s then l[n]? else none
  | none => none

/-- JS array indexing by a possibly-`undefined` string key. -/
def jsArrayGetOpt (l : List String) (o : Option String) : Option String :=
  match o with
  | some s => jsArrayGet l s
  | none => none

/-! ## getScaleAxis (src/util/brick.js) -/

/-- A brick as far as `getScaleAxis` is concerned: its `direction` and
`rotation` numbers plus whatever other fields the brick object carries,
abstracted as `rest : ε`. -/
structure Brick (ε : Type) where
  direction : ℤ
  rotation : ℤ
  rest : ε

/-- Shallow embedding of `getScaleAxis(brick, axis)`: remaps the scale axis
according to the brick direction, then swaps axes 0 and 1 for rotations 1, 3. -/
def getScaleAxis {ε : Type} (brick : Brick ε) (axis : ℤ) : ℤ :=
  let direction := brick.direction
  let rotation := brick.rotation
  let axis1 :=
    if direction == 0 || direction == 1 then
      if axis == 0 then 2 else if axis == 2 then 0 else axis
    else if direction == 2 || direction == 3 then
      if axis == 0 then 1 else if axis == 1 then 2 else if axis == 2 then 0 else axis
    else axis
  if rotation == 1 || rotation == 3 then
    if axis1 == 0 then 1 else if axis1 == 1 then 0 else axis1
  else axis1

/-! ## The Omegga environment and the Player data model -/

/-- One permission entry of a role in the role setup
(`{name, state, bEnabled}`). -/
structure Permission where
  name : String
  state : String
  bEnabled : Bool
deriving DecidableEq, Repr

/-- One role of the role setup (`{name, permissions}`). -/
structure Role where
  name : String
  permissions : List Permission
deriving DecidableEq, Repr

/-- The role setup read through `omegga.getRoleSetup()`. -/
structure RoleSetup where
  roles : List Role
  defaultRole : Role
deriving DecidableEq, Repr

/-- One entry of `getRoleAssignments().savedPlayerRoles`; `roles` is `none`
when the entry has no `roles` field. -/
structure RoleEntry where
  roles : Option (List String)
deriving DecidableEq, Repr

/-- A structured record captured from one matching console line: the named
capture groups, as produced by the correlation engine. -/
structure MatchRecord where
  groups : List (String × String)
deriving DecidableEq, Repr

/-- Reading a named capture group off a match record; `none` is JS `undefined`
(group absent). -/
def MatchRecord.group (m : MatchRecord) (k : String) : Option String :=
  (m.groups.find? (fun kv => kv.1 == k)).map (fun kv => kv.2)

/-- The slice of the Omegga instance the embedded Player methods read:
the host id, the role setup, the saved role assignments, and the console
correlation engine.  `resolve` gives the records an `addWatcher` exchange
resolves with for a pattern source; `chunk` gives the records a
`watchLogChunk` exchange resolves with for a command and pattern source.
All remaining Omegga state is abstracted as `extra : ε`. -/
structure Omegga (ε : Type) where
  extra : ε
  hostId : String
  roleSetup : RoleSetup
  savedPlayerRoles : List (String × RoleEntry)
  resolve : String → List MatchRecord
  chunk : String → String → List MatchRecord

/-- A Player object: the omegga back-reference plus name/id/controller/state. -/
structure PlayerObj (ε : Type) where
  omegga : Omegga ε
  name : String
  id : String
  controller : String
  state : String

/-! ## Player.getRoles and Player.getPermissions -/

/-- The raw value frozen by `Player.getRoles`:
`data && data.roles ? data.roles : []` for
`data = savedPlayerRoles[id]`. -/
def getRolesRaw (spr : List (String × RoleEntry)) (id : String) : List String :=
  match spr.find? (fun kv => kv.1 == id) with
  | none => []
  | some kv =>
    match kv.2.roles with
    | none => []
    | some rs => rs

/-- Static `Player.getRoles(omegga, id)`: the player's saved roles (or `[]`),
frozen. -/
def Player.getRoles {ε : Type} (omegga : Omegga ε) (id : String) :
    FrozenT (List String) :=
  objectFreeze (getRolesRaw omegga.savedPlayerRoles id)

/-- Instance method `player.getRoles()`. -/
def PlayerObj.getRoles {ε : Type} (p : PlayerObj ε) : FrozenT (List String) :=
  Player.getRoles p.omegga p.id

/-- The `DEFAULT_PERMS` table of `Player.getPermissions`. -/
def DEFAULT_PERMS : List (String × List String) :=
  [("moderator",
    ["Bricks.ClearAll",
     "Minigame.AlwaysLeave",
     "Players.Kick",
     "Players.TPInMinigame",
     "Players.TPOthers",
     "Self.Ghost"]),
   ("admin",
    ["Bricks.ClearAll",
     "Bricks.ClearOwn",
     "Bricks.IgnoreTrust",
     "Bricks.Load",
     "Map.Environment",
     "Minigame.AlwaysEdit",
     "Minigame.AlwaysLeave",
     "Minigame.AlwaysSwitchTeam",
     "Minigame.MakeDefault",
     "Minigame.MakePersistent",
     "Minigame.UseAllBricks",
     "Players.Ban",
     "Players.Kick",
     "Players.TPInMinigame",
     "Players.TPOthers",
     "Roles.Grant",
     "Self.Ghost",
     "Server.ChangeRoles",
     "Server.ChangeSettings",
     "Server.FreezeCamera",
     "Tools.Selector.BypassLimits",
     "Tools.Selector.BypassTimeouts"])]

/-- The literal default player permissions object of `Player.getPermissions`. -/
def defaultPermissions : PermMap :=
  [("Bricks.ClearAll", some false),
   ("Bricks.ClearOwn", some true),
   ("Bricks.Delete", some true),
   ("Bricks.Edit", some true),
   ("Bricks.IgnoreTrust", some false),
   ("Bricks.Paint", some true),
   ("Bricks.Place", some true),
   ("BricksItems.Spawn", some true),
   ("Map.Change", some false),
   ("Map.Environment", some false),
   ("Map.SetSpawn", some false),
   ("Minigame.AlwaysEdit", some false),
   ("Minigame.AlwaysLeave", some false),
   ("Minigame.AlwaysSwitchTeam", some false),
   ("Minigame.Create", some true),
   ("Minigame.MakePersistent", some false),
   ("Minigame.UseAllBricks", some false),
   ("Players.Ban", some false),
   ("Players.TPInMinigame", some false),
   ("Players.TPOthers", some false),
   ("Players.TPSelf", some true),
   ("Roles.Grant", some false),
   ("Self.Flashlight", some true),
   ("Self.Fly", some true),
   ("Self.FreezeCamera", some false),
   ("Self.Ghost", some false),
   ("Self.Sprint", some true),
   ("Self.Suicide", some true),
   ("Tools.Selector.Use", some true)]

/-- Static `Player.getPermissions(omegga, id)`.  The host gets every permission
named in the role setup; otherwise the default permissions are merged with the
default role's permission states and then with each of the player's roles
(granting that role's `DEFAULT_PERMS` entries it does not override, then
applying its explicit permission states).  The result is frozen. -/
def Player.getPermissions {ε : Type} (omegga : Omegga ε) (id : String) :
    FrozenT PermMap :=
  let roles := omegga.roleSetup.roles
  let defaultRole := omegga.roleSetup.defaultRole
  if omegga.hostId == id then
    objectFreeze (fromEntries
      (defaultRole.permissions.map (fun p => (p.name, true)) ++
        (roles.map (fun r => r.permissions.map (fun p => (p.name, true)))).flatten))
  else
    let playerRoles :=
      (Player.getRoles omegga id).value.map jsToLowerCase
    let permissions := defaultPermissions
    let permissions := defaultRole.permissions.foldl
      (fun m p =>
        setProp m p.name
          (if p.state == "Unchanged" then getProp m p.name
           else some (p.bEnabled || p.state == "Allowed")))
      permissions
    let permissions := roles.foldl
      (fun m role =>
        if !(playerRoles.contains (jsToLowerCase role.name)) then m
        else
          let defaultPerms :=
            match DEFAULT_PERMS.find? (fun kv => kv.1 == jsToLowerCase role.name) with
            | some kv => kv.2
            | none => []
          let m := defaultPerms.foldl
            (fun m perm =>
              if (role.permissions.find? (fun r => r.name == perm)).isNone then
                setProp m perm (some true)
              else m)
            m
          role.permissions.foldl
            (fun m p =>
              let v1 : Option Bool :=
                if p.state == "Forbidden" then some false
                else if p.state == "Unchanged" then getProp m p.name
                else some (truthy (getProp m p.name) || p.bEnabled ||
                  p.state == "Allowed")
              let m := setProp m p.name v1
              setProp m p.name (some (truthy (getProp m p.name) || p.bEnabled)))
            m)
      permissions
    objectFreeze permissions

/-- Instance method `player.getPermissions()`. -/
def PlayerObj.getPermissions {ε : Type} (p : PlayerObj ε) : FrozenT PermMap :=
  Player.getPermissions p.omegga p.id

/-! ## Player.getPosition: the two single exchanges and their event trace -/

/-- Observable interaction with the console engine: registering a watcher for a
pattern, or writing a command line. -/
inductive Event where
  | register (patternSrc : String)
  | write (cmd : String)
deriving DecidableEq, Repr

/-- Source of the `pawnRegExp` template literal in `Player.getPosition`. -/
def pawnPatternSrc (controller : String) : String :=
  "BP_PlayerController_C .+?PersistentLevel\\." ++ controller ++
    "\\.Pawn = BP_FigureV2_C\x27.+?:PersistentLevel.(?<pawn>BP_FigureV2_C_\\d+)\x27"

/-- The command issued by the first exchange of `Player.getPosition`. -/
def pawnCmd (controller : String) : String :=
  "GetAll BP_PlayerController_C Pawn Name=" ++ controller

/-- Source of the `posRegExp` template literal in `Player.getPosition`. -/
def posPatternSrc (pawn : String) : String :=
  "CapsuleComponent .+?PersistentLevel\\." ++ pawn ++
    "\\.CollisionCylinder\\.RelativeLocation = \\(X=(?<x>[\\d\\.-]+),Y=(?<y>[\\d\\.-]+),Z=(?<z>[\\d\\.-]+)\\)"

/-- The command issued by the second exchange of `Player.getPosition`. -/
def posCmd (pawn : String) : String :=
  "GetAll SceneComponent RelativeLocation Name=CollisionCylinder Outer=" ++ pawn

/-- Modelled from the spec: `omegga.addWatcher(pattern, {exec, timeoutDelay})`
— the Omegga class implementing it is not among the embedded sources.  Per the
spec (SingleExchange), the watcher is registered first and `exec` is then
invoked exactly once, synchronously after registration, to issue the triggering
command; the call resolves with the list of match records.  The records are
supplied by the environment's `resolve` function; the event trace records the
registration followed by the single command write `exec` performs. -/
def addWatcher {ε : Type} (om : Omegga ε) (patternSrc : String) (execCmd : String) :
    List MatchRecord × List Event :=
  (om.resolve patternSrc, [Event.register patternSrc, Event.write execCmd])

/-- `Player.getPosition()`: resolve the player's pawn from its controller, then
the pawn's `RelativeLocation`, and return the coordinates coerced to numbers.
`none` as first component models the rejected promise when destructuring an
empty watcher result; a missing `pawn` group interpolates as the string
`"undefined"`, as JS template literals do.  The second component is the trace
of watcher registrations and command writes, in order. -/
def Player.getPosition {ε : Type} (p : PlayerObj ε) :
    Option (List (Option ℚ)) × List Event :=
  let om := p.omegga
  let (pawnRecs, ev1) := addWatcher om (pawnPatternSrc p.controller) (pawnCmd p.controller)
  match pawnRecs.head? with
  | none => (none, ev1)
  | some m1 =>
    let pawn := (m1.group "pawn").getD "undefined"
    let (posRecs, ev2) := addWatcher om (posPatternSrc pawn) (posCmd pawn)
    match posRecs.head? with
    | none => (none, ev1 ++ ev2)
    | some m2 =>
      (some ([m2.group "x", m2.group "y", m2.group "z"].map jsNumberOpt),
        ev1 ++ ev2)

/-! ## Chunk exchanges of the Player feature layer -/

/-- One `watchLogChunk` call as issued by the Player methods: the command, the
pattern source, and the options object (`first` names the capture group used as
chunk-restart key; `timeoutDelay` when present). -/
structure ChunkCall where
  cmd : String
  patternSrc : String
  first : Option String
  timeoutDelay : Option Nat
deriving DecidableEq, Repr

/-- Whether a pattern source begins with the named capture group `index`. -/
def beginsWithIndexGroup (s : String) : Bool :=
  "^(?<index>".data.isPrefixOf s.data

/-- Source of `ownerRegExp` in `Player.getGhostBrick`. -/
def ghostOwnerPatternSrc : String :=
  "^(?<index>\\d+)\\) BrickGridPreviewActor (.+):PersistentLevel\\.(?<actor>BrickGridPreviewActor_\\d+)\\.Owner = BP_PlayerController_C\x27(.+):PersistentLevel\\.(?<controller>BP_PlayerController_C_\\d+)\x27$"

/-- Source of `transformParamsRegExp` in `Player.getGhostBrick`. -/
def ghostTransformPatternSrc : String :=
  "^(?<index>\\d+)\\) BrickGridPreviewActor (.+):PersistentLevel\\.(?<actor>BrickGridPreviewActor_\\d+)\\.TransformParameters = \\(TargetGrid=(\"(?<targetGrid>.+)\"|None),Position=\\(X=(?<x>.+),Y=(?<y>.+),Z=(?<z>.+)\\),Orientation=(?<orientation>.+)\\)$"

/-- The ghost-brick data returned by `Player.getGhostBrick`. -/
structure GhostBrick where
  targetGrid : Option String
  location : List (Option ℚ)
  orientation : Option String
deriving DecidableEq, Repr

/-- `Player.getGhostBrick()`: dump `BrickGridPreviewActor` owners and transform
parameters, pick the actor owned by this player's controller, and read its
transform; `none` models `return undefined` when either lookup finds nothing.
The second component lists the two chunk exchanges as issued. -/
def Player.getGhostBrick {ε : Type} (p : PlayerObj ε) :
    Option GhostBrick × List ChunkCall :=
  let controller := p.controller
  let owners := p.omegga.chunk "GetAll BrickGridPreviewActor Owner" ghostOwnerPatternSrc
  let transformParams :=
    p.omegga.chunk "GetAll BrickGridPreviewActor TransformParameters" ghostTransformPatternSrc
  let calls : List ChunkCall :=
    [⟨"GetAll BrickGridPreviewActor Owner", ghostOwnerPatternSrc, some "index", some 500⟩,
     ⟨"GetAll BrickGridPreviewActor TransformParameters", ghostTransformPatternSrc,
       some "index", some 500⟩]
  let result : Option GhostBrick :=
    match owners.find? (fun owner => owner.group "controller" == some controller) with
    | none => none
    | some owner =>
      let actor := owner.group "actor"
      match transformParams.find? (fun t => t.group "actor" == actor) with
      | none => none
      | some t =>
        some { targetGrid := t.group "targetGrid",
               location := [jsNumberOpt (t.group "x"), jsNumberOpt (t.group "y"),
                 jsNumberOpt (t.group "z")],
               orientation := t.group "orientation" }
  (result, calls)

/-- Source of `ownerRegExp` in `Player.getPaint`. -/
def paintOwnerPatternSrc : String :=
  "^(?<index>\\d+)\\) BP_Item_PaintTool_C (.+):PersistentLevel\\.(?<actor>BP_Item_PaintTool_C_\\d+)\\.Owner = BP_PlayerController_C\x27(.+):PersistentLevel\\.(?<controller>BP_PlayerController_C_\\d+)\x27$"

/-- Source of `colorRegExp` in `Player.getPaint` (captures arrive in B, G, R, A
order). -/
def paintColorPatternSrc : String :=
  "^(?<index>\\d+)\\) BP_Item_PaintTool_C (.+):PersistentLevel\\.(?<actor>BP_Item_PaintTool_C_\\d+)\\.SelectedColor = \\(B=(?<b>.+),G=(?<g>.+),R=(?<r>.+),A=(?<a>.+)\\)$"

/-- Source of `materialRegExp` in `Player.getPaint`. -/
def paintMaterialPatternSrc : String :=
  "^(?<index>\\d+)\\) BP_Item_PaintTool_C (.+):PersistentLevel\\.(?<actor>BP_Item_PaintTool_C_\\d+)\\.SelectedMaterialId = (?<materialIndex>\\d+)$"

/-- Source of `materialAlphaRegExp` in `Player.getPaint`. -/
def paintMaterialAlphaPatternSrc : String :=
  "^(?<index>\\d+)\\) BP_Item_PaintTool_C (.+):PersistentLevel\\.(?<actor>BP_Item_PaintTool_C_\\d+)\\.SelectedMaterialAlpha = (?<materialAlpha>\\d+)$"

/-- The paint-tool data returned by `Player.getPaint`; `materialIndex` and
`materialAlpha` are returned as the raw captured strings, `color` as the
coerced `[r, g, b]` triple. -/
structure Paint where
  materialIndex : Option String
  materialAlpha : Option String
  material : Option String
  color : List (Option ℚ)
deriving DecidableEq, Repr

/-- `Player.getPaint()`: dump the paint-tool owners, colors, material ids and
material alphas, pick the tool owned by this player's controller, and combine
its records; `none` models `return undefined` when the owner or any of the
three property records is missing.  `DEFAULT_MATERIALS` abstracts the constant
table of `util/brick.js`, which is outside the embedded sources.  The second
component lists the four chunk exchanges as issued. -/
def Player.getPaint {ε : Type} (p : PlayerObj ε) (DEFAULT_MATERIALS : List String) :
    Option Paint × List ChunkCall :=
  let controller := p.controller
  let owners := p.omegga.chunk "GetAll BP_Item_PaintTool_C Owner" paintOwnerPatternSrc
  let colorMatch := p.omegga.chunk "GetAll BP_Item_PaintTool_C SelectedColor" paintColorPatternSrc
  let materialMatch :=
    p.omegga.chunk "GetAll BP_Item_PaintTool_C SelectedMaterialId" paintMaterialPatternSrc
  let materialAlphaMatch :=
    p.omegga.chunk "GetAll BP_Item_PaintTool_C SelectedMaterialAlpha" paintMaterialAlphaPatternSrc
  let calls : List ChunkCall :=
    [⟨"GetAll BP_Item_PaintTool_C Owner", paintOwnerPatternSrc, some "index", some 500⟩,
     ⟨"GetAll BP_Item_PaintTool_C SelectedColor", paintColorPatternSrc, some "index", some 500⟩,
     ⟨"GetAll BP_Item_PaintTool_C SelectedMaterialId", paintMaterialPatternSrc,
       some "index", some 500⟩,
     ⟨"GetAll BP_Item_PaintTool_C SelectedMaterialAlpha", paintMaterialAlphaPatternSrc,
       some "index", some 500⟩]
  let result : Option Paint :=
    match owners.find? (fun owner => owner.group "controller" == some controller) with
    | none => none
    | some owner =>
      let actor := owner.group "actor"
      let colorRec := colorMatch.find? (fun c => c.group "actor" == actor)
      let materialRec := materialMatch.find? (fun m => m.group "actor" == actor)
      let materialAlphaRec := materialAlphaMatch.find? (fun m => m.group "actor" == actor)
      match colorRec, materialRec, materialAlphaRec with
      | some c, some material, some materialAlpha =>
        some { materialIndex := material.group "materialIndex",
               materialAlpha := materialAlpha.group "materialAlpha",
               material := jsArrayGetOpt DEFAULT_MATERIALS (material.group "materialIndex"),
               color := [jsNumberOpt (c.group "r"), jsNumberOpt (c.group "g"),
                 jsNumberOpt (c.group "b")] }
      | _, _, _ => none
  (result, calls)

/-- Source of `brickTemplateRegExp` in `Player.getTemplateBounds`. -/
def brickTemplatePatternSrc : String :=
  "^(?<index>\\d+)\\) BP_PlayerController_C (.+):PersistentLevel\\.(?<controller>BP_PlayerController_C_\\d+)\\.TEMP_BrickTemplate_Server = BrickBuildingTemplate\x27(.+)Transient.(?<templateName>BrickBuildingTemplate_\\d+)\x27$"

/-- Source of `minBoundsRegExp` in `Player.getTemplateBounds`. -/
def minBoundsPatternSrc : String :=
  "^(?<index>\\d+)\\) BrickBuildingTemplate (.+)Transient\\.(?<templateName>BrickBuildingTemplate_\\d+)\\.MinBounds = \\(X=(?<x>.+),Y=(?<y>.+),Z=(?<z>.+)\\)$"

/-- Source of `maxBoundsRegExp` in `Player.getTemplateBounds`. -/
def maxBoundsPatternSrc : String :=
  "^(?<index>\\d+)\\) BrickBuildingTemplate (.+)Transient\\.(?<templateName>BrickBuildingTemplate_\\d+)\\.MaxBounds = \\(X=(?<x>.+),Y=(?<y>.+),Z=(?<z>.+)\\)$"

/-- Source of `centerRegExp` in `Player.getTemplateBounds`. -/
def centerPatternSrc : String :=
  "^(?<index>\\d+)\\) BrickBuildingTemplate (.+)Transient\\.(?<templateName>BrickBuildingTemplate_\\d+)\\.Center = \\(X=(?<x>.+),Y=(?<y>.+),Z=(?<z>.+)\\)$"

/-- The clipboard-template bounds returned by `Player.getTemplateBounds`. -/
structure TemplateBounds where
  minBound : List (Option ℚ)
  maxBound : List (Option ℚ)
  center : List (Option ℚ)
deriving DecidableEq, Repr

/-- `Player.getTemplateBounds()`: dump this controller's template reference and
all template `MinBounds`/`MaxBounds`/`Center` records, take the first template
record's name, and combine the three records carrying that name; `none` models
`return undefined` when any dump is empty or any of the three records is
missing.  The second component lists the four chunk exchanges as issued. -/
def Player.getTemplateBounds {ε : Type} (p : PlayerObj ε) :
    Option TemplateBounds × List ChunkCall :=
  let controller := p.controller
  let templateCmd :=
    "GetAll BP_PlayerController_C TEMP_BrickTemplate_Server Name=" ++ controller
  let template := p.omegga.chunk templateCmd brickTemplatePatternSrc
  let minBounds := p.omegga.chunk "GetAll BrickBuildingTemplate MinBounds" minBoundsPatternSrc
  let maxBounds := p.omegga.chunk "GetAll BrickBuildingTemplate MaxBounds" maxBoundsPatternSrc
  let centers := p.omegga.chunk "GetAll BrickBuildingTemplate Center" centerPatternSrc
  let calls : List ChunkCall :=
    [⟨templateCmd, brickTemplatePatternSrc, some "index", none⟩,
     ⟨"GetAll BrickBuildingTemplate MinBounds", minBoundsPatternSrc, some "index", none⟩,
     ⟨"GetAll BrickBuildingTemplate MaxBounds", maxBoundsPatternSrc, some "index", none⟩,
     ⟨"GetAll BrickBuildingTemplate Center", centerPatternSrc, some "index", none⟩]
  let result : Option TemplateBounds :=
    if template.isEmpty || minBounds.isEmpty || maxBounds.isEmpty || centers.isEmpty then
      none
    else
      match template.head? with
      | none => none
      | some t0 =>
        let templateName := t0.group "templateName"
        let minBound := minBounds.find? (fun m => m.group "templateName" == templateName)
        let maxBound := maxBounds.find? (fun m => m.group "templateName" == templateName)
        let center := centers.find? (fun c => c.group "templateName" == templateName)
        match minBound, maxBound, center with
        | some mn, some mx, some c =>
          some { minBound := [jsNumberOpt (mn.group "x"), jsNumberOpt (mn.group "y"),
                   jsNumberOpt (mn.group "z")],
                 maxBound := [jsNumberOpt (mx.group "x"), jsNumberOpt (mx.group "y"),
                   jsNumberOpt (mx.group "z")],
                 center := [jsNumberOpt (c.group "x"), jsNumberOpt (c.group "y"),
                   jsNumberOpt (c.group "z")] }
        | _, _, _ => none
  (result, calls)

/-! ## Database (src/webserver/backend/database.js) -/

/-- A stored dashboard user as far as `authUser` reads it. -/
structure User where
  username : String
  hash : String
  isBanned : Bool
deriving DecidableEq, Repr

/-- `Database.authUser(username, password)`: look the user up by username,
reject missing or banned users without consulting the password, otherwise
return the user exactly when the bcrypt comparison succeeds.  `compare`
abstracts `bcrypt.compare` (an external library); `users` is the user store,
with `findOne({username})` modelled as the first stored user carrying the
username. -/
def Database.authUser (compare : String → String → Bool) (users : List User)
    (username password : String) : Option User :=
  match users.find? (fun u => u.username == username) with
  | none => none
  | some user =>
    if user.isBanned then none
    else if compare password user.hash then some user
    else none

/-- `createPunchcard()`: a 7-by-24 grid of zeroes (days by hours). -/
def createPunchcard : List (List ℤ) :=
  List.replicate 7 (List.replicate 24 0)

/-- The punchcard document stored in the status store (`type: 'punchcard'`,
`kind: 'playerCount'` are fixed by the query and omitted). -/
structure PunchcardDoc where
  created : ℤ
  updated : ℤ
  month : ℤ
  year : ℤ
  punchcard : List (List ℤ)
deriving DecidableEq, Repr

/-- Reading `grid[day][hour]`. -/
def getCell (grid : List (List ℤ)) (day hour : Nat) : ℤ :=
  (grid.getD day []).getD hour 0

/-- Writing `grid[day][hour] = v` (replacing the mutated row). -/
def setCell (grid : List (List ℤ)) (day hour : Nat) (v : ℤ) : List (List ℤ) :=
  grid.set day ((grid.getD day []).set hour v)

/-- The `findOne({type: 'punchcard', kind: 'playerCount', month, year})` lookup
on the status store. -/
def findPunchcard (store : List PunchcardDoc) (month year : ℤ) : Option PunchcardDoc :=
  store.find? (fun c => c.month == month && c.year == year)

/-- `Database.updatePlayerPunchcard(numNewPlayers)`, restricted to the
punchcard document it inserts or updates.  `existing` is the result of the
month/year `findOne`; `time`, `day`, `hour` are `now.getTime()`,
`now.getUTCDay()`, `now.getUTCHours()` of the current UTC date. -/
def Database.updatePlayerPunchcard (existing : Option PunchcardDoc) (time : ℤ)
    (day hour : Nat) (month year : ℤ) (numNewPlayers : ℤ) : PunchcardDoc :=
  match existing with
  | none =>
    { created := time, updated := time, month := month, year := year,
      punchcard := setCell createPunchcard day hour numNewPlayers }
  | some card =>
    { card with
      punchcard := setCell card.punchcard day hour
        (getCell card.punchcard day hour + numNewPlayers),
      updated := time }

/-! ## Shared helper lemmas -/

theorem cell_set_here (g : List (List ℤ)) (day hour : Nat) (v : ℤ)
    (hd : day < g.length) (hh : hour < (g.getD day []).length) :
    getCell (setCell g day hour v) day hour = v := by
  unfold getCell setCell
  simp only [List.getD_eq_getElem?_getD]
  rw [List.getElem?_set_eq_of_lt _ hd]
  simp only [Option.getD_some]
  rw [List.getElem?_set_eq_of_lt]
  · rfl
  · simpa [List.getD_eq_getElem?_getD] using hh

theorem cell_set_elsewhere (g : List (List ℤ)) (day hour : Nat) (v : ℤ) (d h2 : Nat)
    (hne : ¬(d = day ∧ h2 = hour)) :
    getCell (setCell g day hour v) d h2 = getCell g d h2 := by
  unfold getCell setCell
  by_cases hd : d = day
  · subst hd
    have hh2 : h2 ≠ hour := fun he => hne ⟨rfl, he⟩
    by_cases hlen : d < g.length
    · simp only [List.getD_eq_getElem?_getD]
      rw [List.getElem?_set_eq_of_lt _ hlen]
      simp only [Option.getD_some]
      rw [List.getElem?_set_ne (fun he => hh2 he.symm)]
    · rw [List.set_eq_of_length_le (by omega)]
  · simp only [List.getD_eq_getElem?_getD]
    rw [List.getElem?_set_ne (fun he => hd he.symm)]

theorem createPunchcard_length : createPunchcard.length = 7 := by
  unfold createPunchcard
  rw [List.length_replicate]

theorem createPunchcard_row (d : Nat) :
    createPunchcard[d]?.getD [] = if d < 7 then List.replicate 24 0 else [] := by
  unfold createPunchcard
  rw [List.getElem?_replicate]
  split <;> rfl

theorem getCell_createPunchcard (d h2 : Nat) : getCell createPunchcard d h2 = 0 := by
  unfold getCell
  rw [List.getD_eq_getElem?_getD createPunchcard d [], createPunchcard_row]
  split
  · rw [List.getD_eq_getElem?_getD, List.getElem?_replicate]
    split <;> rfl
  · rfl

theorem setCell_row_length (g : List (List ℤ)) (day hour : Nat) (v : ℤ)
    (hd : day < g.length) (d2 : Nat) :
    ((setCell g day hour v)[d2]?.getD []).length = (g[d2]?.getD []).length := by
  unfold setCell
  by_cases h : d2 = day
  · subst h
    rw [List.getElem?_set_eq_of_lt _ hd]
    simp [List.length_set, List.getD_eq_getElem?_getD]
  · rw [List.getElem?_set_ne (fun he => h he.symm)]

/-! ## Claim theorems -/

/-- C1: `getScaleAxis` and `Player.getPermissions` are pure, stateless
transforms: two runs on equal inputs — the same brick direction/rotation and
axis, the same role setup, host id and saved role assignments — return equal
results, however the rest of the brick object and of the omegga state
(including the console correlation engine) differ.  In this embedding the two
functions map their inputs to a result with no state component, so there is no
state either could mutate. -/
theorem getScaleAxis_getPermissions_pure {ε₁ ε₂ : Type}
    (b1 : Brick ε₁) (b2 : Brick ε₂) (axis : ℤ)
    (om1 : Omegga ε₁) (om2 : Omegga ε₂) (id : String)
    (hdir : b1.direction = b2.direction) (hrot : b1.rotation = b2.rotation)
    (hhost : om1.hostId = om2.hostId) (hsetup : om1.roleSetup = om2.roleSetup)
    (hroles : om1.savedPlayerRoles = om2.savedPlayerRoles) :
    getScaleAxis b1 axis = getScaleAxis b2 axis ∧
    Player.getPermissions om1 id = Player.getPermissions om2 id := by
  constructor
  · unfold getScaleAxis
    rw [hdir, hrot]
  · unfold Player.getPermissions Player.getRoles getRolesRaw
    rw [hhost, hsetup, hroles]

/-- Witness for C1: two bricks and two omegga states agreeing only on the
relevant fields (different `rest`/`extra` payloads, different engines) give
equal results. -/
theorem getScaleAxis_getPermissions_pure_witness :
    getScaleAxis (⟨1, 2, true⟩ : Brick Bool) 0 = getScaleAxis (⟨1, 2, 7⟩ : Brick ℕ) 0 ∧
    Player.getPermissions
        (⟨true, "host-id",
          ⟨[⟨"Admin", [⟨"Bricks.ClearAll", "Allowed", true⟩]⟩],
            ⟨"Default", [⟨"Bricks.Place", "Unchanged", false⟩]⟩⟩,
          [("u1", ⟨some ["Admin"]⟩)], fun _ => [], fun _ _ => []⟩ : Omegga Bool) "u1" =
      Player.getPermissions
        (⟨99, "host-id",
          ⟨[⟨"Admin", [⟨"Bricks.ClearAll", "Allowed", true⟩]⟩],
            ⟨"Default", [⟨"Bricks.Place", "Unchanged", false⟩]⟩⟩,
          [("u1", ⟨some ["Admin"]⟩)], fun _ => [⟨[("k", "v")]⟩],
          fun _ _ => [⟨[]⟩]⟩ : Omegga ℕ) "u1" :=
  getScaleAxis_getPermissions_pure _ _ _ _ _ _ rfl rfl rfl rfl rfl

/-- C2: `Player.getGhostBrick` surfaces the absence of a match as `undefined`,
never as a thrown error: if the owner dump has no record whose `controller`
capture equals the player's controller, or no transform-parameters record
matches the found actor, the result is `none` (the embedding is a total
function, so no other outcome than a value is possible). -/
theorem getGhostBrick_no_match_is_undefined {ε : Type} (p : PlayerObj ε) :
    ((p.omegga.chunk "GetAll BrickGridPreviewActor Owner" ghostOwnerPatternSrc).find?
        (fun owner => owner.group "controller" == some p.controller) = none →
      (Player.getGhostBrick p).1 = none) ∧
    (∀ owner,
      (p.omegga.chunk "GetAll BrickGridPreviewActor Owner" ghostOwnerPatternSrc).find?
        (fun owner => owner.group "controller" == some p.controller) = some owner →
      (p.omegga.chunk "GetAll BrickGridPreviewActor TransformParameters"
          ghostTransformPatternSrc).find?
        (fun t => t.group "actor" == owner.group "actor") = none →
      (Player.getGhostBrick p).1 = none) := by
  constructor
  · intro h
    unfold Player.getGhostBrick
    dsimp only
    rw [h]
  · intro owner h1 h2
    unfold Player.getGhostBrick
    dsimp only
    rw [h1]
    dsimp only
    rw [h2]

/-- Example for C2: a player whose engine reports no ghost-brick owner at all,
and one whose ghost brick has an owner record but no matching
transform-parameters record; both get `undefined`, with no failure path. -/
theorem getGhostBrick_no_match_is_undefined_witness :
    (Player.getGhostBrick
      (⟨⟨(), "h", ⟨[], ⟨"d", []⟩⟩, [], fun _ => [], fun _ _ => []⟩,
        "n", "i", "BP_PlayerController_C_1", "s"⟩ : PlayerObj Unit)).1 = none ∧
    (Player.getGhostBrick
      (⟨⟨(), "h", ⟨[], ⟨"d", []⟩⟩, [], fun _ => [],
          fun cmd _ =>
            if cmd == "GetAll BrickGridPreviewActor Owner" then
              [⟨[("controller", "BP_PlayerController_C_1"),
                 ("actor", "BrickGridPreviewActor_9")]⟩]
            else []⟩,
        "n", "i", "BP_PlayerController_C_1", "s"⟩ : PlayerObj Unit)).1 = none :=
  ⟨(getGhostBrick_no_match_is_undefined _).1 rfl,
   (getGhostBrick_no_match_is_undefined _).2
     ⟨[("controller", "BP_PlayerController_C_1"), ("actor", "BrickGridPreviewActor_9")]⟩
     (by decide) (by decide)⟩

theorem getPosition_trace_shape {ε : Type} (p : PlayerObj ε) :
    (Player.getPosition p).2 =
      [Event.register (pawnPatternSrc p.controller), Event.write (pawnCmd p.controller)] ∨
    ∃ pawn, (Player.getPosition p).2 =
      [Event.register (pawnPatternSrc p.controller), Event.write (pawnCmd p.controller),
       Event.register (posPatternSrc pawn), Event.write (posCmd pawn)] := by
  unfold Player.getPosition addWatcher
  dsimp only
  cases h1 : (p.omegga.resolve (pawnPatternSrc p.controller)).head? with
  | none => left; simp [h1]
  | some m1 =>
    right
    refine ⟨(m1.group "pawn").getD "undefined", ?_⟩
    cases h2 : (p.omegga.resolve (posPatternSrc ((m1.group "pawn").getD "undefined"))).head? with
    | none => simp [h1, h2]
    | some m2 => simp [h1, h2]

/-- C3: the event trace of `Player.getPosition` decomposes into exchange
blocks, each consisting of exactly the registration of that exchange's pattern
immediately followed by the single write of that exchange's `GetAll` command
(the write happens inside the `exec` callback passed to the watcher
registration, so it occurs after the registration and exactly once per
exchange); `addWatcher`'s register-then-exec behaviour is modelled from the
spec, the two call sites from the source. -/
theorem getPosition_registers_before_write {ε : Type} (p : PlayerObj ε) :
    ∃ xs : List (String × String),
      (Player.getPosition p).2 =
        (xs.map (fun b => [Event.register b.1, Event.write b.2])).flatten ∧
      ∀ b ∈ xs,
        (b.1 = pawnPatternSrc p.controller ∧ b.2 = pawnCmd p.controller) ∨
        ∃ pawn, b.1 = posPatternSrc pawn ∧ b.2 = posCmd pawn := by
  rcases getPosition_trace_shape p with h | ⟨pawn, h⟩
  · refine ⟨[(pawnPatternSrc p.controller, pawnCmd p.controller)], ?_, ?_⟩
    · simpa using h
    · intro b hb
      simp only [List.mem_singleton] at hb
      subst hb
      exact Or.inl ⟨rfl, rfl⟩
  · refine ⟨[(pawnPatternSrc p.controller, pawnCmd p.controller),
      (posPatternSrc pawn, posCmd pawn)], ?_, ?_⟩
    · simpa using h
    · intro b hb
      simp only [List.mem_cons, List.mem_singleton] at hb
      rcases hb with hb | hb | hb
      · subst hb; exact Or.inl ⟨rfl, rfl⟩
      · subst hb; exact Or.inr ⟨pawn, rfl, rfl⟩
      · cases hb

/-- C4: `Player.getPosition` performs its two exchanges in sequence — the pawn
is resolved from the player's controller, and the pawn resolved by the first
exchange parameterizes the second pattern and command — and the result is the
coordinate captures `x`, `y`, `z` of the second exchange coerced to numbers,
in that order. -/
theorem getPosition_pawn_then_location {ε : Type} (p : PlayerObj ε)
    (m1 : MatchRecord) (tl1 : List MatchRecord) (pawn : String)
    (m2 : MatchRecord) (tl2 : List MatchRecord) (sx sy sz : String)
    (h1 : p.omegga.resolve (pawnPatternSrc p.controller) = m1 :: tl1)
    (hpawn : m1.group "pawn" = some pawn)
    (h2 : p.omegga.resolve (posPatternSrc pawn) = m2 :: tl2)
    (hx : m2.group "x" = some sx) (hy : m2.group "y" = some sy)
    (hz : m2.group "z" = some sz) :
    Player.getPosition p =
      (some [jsNumber sx, jsNumber sy, jsNumber sz],
       [Event.register (pawnPatternSrc p.controller), Event.write (pawnCmd p.controller),
        Event.register (posPatternSrc pawn), Event.write (posCmd pawn)]) := by
  unfold Player.getPosition addWatcher
  dsimp only
  rw [h1]
  simp only [List.head?, hpawn, Option.getD]
  rw [h2]
  simp [hx, hy, hz, jsNumberOpt]

/-- Witness for C4: an engine answering both exchanges with one record carrying
the `pawn` and coordinate groups; the position resolves to the coerced
captures and the trace shows both register-then-write exchanges. -/
theorem getPosition_pawn_then_location_witness :
    Player.getPosition
      (⟨⟨(), "h", ⟨[], ⟨"d", []⟩⟩, [],
          fun _ => [⟨[("pawn", "BP_FigureV2_C_5"), ("x", "1"), ("y", "22.5"), ("z", "-3")]⟩],
          fun _ _ => []⟩,
        "n", "i", "BP_PlayerController_C_0", "s"⟩ : PlayerObj Unit) =
      (some [jsNumber "1", jsNumber "22.5", jsNumber "-3"],
       [Event.register (pawnPatternSrc "BP_PlayerController_C_0"),
        Event.write (pawnCmd "BP_PlayerController_C_0"),
        Event.register (posPatternSrc "BP_FigureV2_C_5"),
        Event.write (posCmd "BP_FigureV2_C_5")]) :=
  getPosition_pawn_then_location _
    ⟨[("pawn", "BP_FigureV2_C_5"), ("x", "1"), ("y", "22.5"), ("z", "-3")]⟩ []
    "BP_FigureV2_C_5"
    ⟨[("pawn", "BP_FigureV2_C_5"), ("x", "1"), ("y", "22.5"), ("z", "-3")]⟩ []
    "1" "22.5" "-3" rfl (by decide) rfl (by decide) (by decide) (by decide)

/-- C5: `Player.getPaint` issues four chunk dumps, selects the paint-tool actor
whose owner record's `controller` capture equals the player's controller, and
returns the material index and alpha captures, the `DEFAULT_MATERIALS` entry at
the material index, and the color triple `[r, g, b]` built from the `r`, `g`,
`b` captures of the B,G,R,A-ordered color record; it returns `undefined`
whenever the owner record, or the color, material, or material-alpha record
for the found actor, is missing. -/
theorem getPaint_characterization {ε : Type} (p : PlayerObj ε) (dm : List String) :
    ((Player.getPaint p dm).2.map ChunkCall.cmd =
      ["GetAll BP_Item_PaintTool_C Owner", "GetAll BP_Item_PaintTool_C SelectedColor",
       "GetAll BP_Item_PaintTool_C SelectedMaterialId",
       "GetAll BP_Item_PaintTool_C SelectedMaterialAlpha"]) ∧
    ((p.omegga.chunk "GetAll BP_Item_PaintTool_C Owner" paintOwnerPatternSrc).find?
        (fun owner => owner.group "controller" == some p.controller) = none →
      (Player.getPaint p dm).1 = none) ∧
    (∀ owner c material materialAlpha,
      (p.omegga.chunk "GetAll BP_Item_PaintTool_C Owner" paintOwnerPatternSrc).find?
        (fun owner => owner.group "controller" == some p.controller) = some owner →
      (p.omegga.chunk "GetAll BP_Item_PaintTool_C SelectedColor" paintColorPatternSrc).find?
        (fun c => c.group "actor" == owner.group "actor") = some c →
      (p.omegga.chunk "GetAll BP_Item_PaintTool_C SelectedMaterialId"
          paintMaterialPatternSrc).find?
        (fun m => m.group "actor" == owner.group "actor") = some material →
      (p.omegga.chunk "GetAll BP_Item_PaintTool_C SelectedMaterialAlpha"
          paintMaterialAlphaPatternSrc).find?
        (fun m => m.group "actor" == owner.group "actor") = some materialAlpha →
      (Player.getPaint p dm).1 =
        some { materialIndex := material.group "materialIndex",
               materialAlpha := materialAlpha.group "materialAlpha",
               material := jsArrayGetOpt dm (material.group "materialIndex"),
               color := [jsNumberOpt (c.group "r"), jsNumberOpt (c.group "g"),
                 jsNumberOpt (c.group "b")] }) ∧
    (∀ owner,
      (p.omegga.chunk "GetAll BP_Item_PaintTool_C Owner" paintOwnerPatternSrc).find?
        (fun owner => owner.group "controller" == some p.controller) = some owner →
      ((p.omegga.chunk "GetAll BP_Item_PaintTool_C SelectedColor" paintColorPatternSrc).find?
          (fun c => c.group "actor" == owner.group "actor") = none ∨
       (p.omegga.chunk "GetAll BP_Item_PaintTool_C SelectedMaterialId"
           paintMaterialPatternSrc).find?
          (fun m => m.group "actor" == owner.group "actor") = none ∨
       (p.omegga.chunk "GetAll BP_Item_PaintTool_C SelectedMaterialAlpha"
           paintMaterialAlphaPatternSrc).find?
          (fun m => m.group "actor" == owner.group "actor") = none) →
      (Player.getPaint p dm).1 = none) := by
  refine ⟨rfl, ?_, ?_, ?_⟩
  · intro h
    unfold Player.getPaint
    dsimp only
    rw [h]
  · intro owner c material materialAlpha h1 h2 h3 h4
    unfold Player.getPaint
    dsimp only
    rw [h1]
    dsimp only
    rw [h2, h3, h4]
  · intro owner h1 hor
    unfold Player.getPaint
    dsimp only
    rw [h1]
    dsimp only
    rcases hor with h | h | h <;> rw [h] <;>
      cases hc : (p.omegga.chunk "GetAll BP_Item_PaintTool_C SelectedColor"
          paintColorPatternSrc).find? (fun c => c.group "actor" == owner.group "actor") <;>
      cases hm : (p.omegga.chunk "GetAll BP_Item_PaintTool_C SelectedMaterialId"
          paintMaterialPatternSrc).find? (fun m => m.group "actor" == owner.group "actor") <;>
      cases ha : (p.omegga.chunk "GetAll BP_Item_PaintTool_C SelectedMaterialAlpha"
          paintMaterialAlphaPatternSrc).find? (fun m => m.group "actor" == owner.group "actor") <;>
      simp_all

/-- Example for C5: a complete paint-tool dump for the player's controller
yields the combined record (with the engine's B,G,R captures reordered to
`[r, g, b]`), the material looked up in the supplied `DEFAULT_MATERIALS`. -/
theorem getPaint_characterization_witness :
    (Player.getPaint
      (⟨⟨(), "h", ⟨[], ⟨"d", []⟩⟩, [], fun _ => [],
          fun cmd _ =>
            if cmd == "GetAll BP_Item_PaintTool_C Owner" then
              [⟨[("controller", "BP_PlayerController_C_1"),
                 ("actor", "BP_Item_PaintTool_C_2")]⟩]
            else if cmd == "GetAll BP_Item_PaintTool_C SelectedColor" then
              [⟨[("actor", "BP_Item_PaintTool_C_2"), ("b", "255"), ("g", "128"),
                 ("r", "0"), ("a", "255")]⟩]
            else if cmd == "GetAll BP_Item_PaintTool_C SelectedMaterialId" then
              [⟨[("actor", "BP_Item_PaintTool_C_2"), ("materialIndex", "1")]⟩]
            else
              [⟨[("actor", "BP_Item_PaintTool_C_2"), ("materialAlpha", "5")]⟩]⟩,
        "n", "i", "BP_PlayerController_C_1", "s"⟩ : PlayerObj Unit)
      ["GLOW", "PLASTIC", "GLASS"]).1 =
      some { materialIndex := some "1",
             materialAlpha := some "5",
             material := jsArrayGetOpt ["GLOW", "PLASTIC", "GLASS"] (some "1"),
             color := [jsNumberOpt (some "0"), jsNumberOpt (some "128"),
               jsNumberOpt (some "255")] } :=
  (getPaint_characterization _ _).2.2.1
    ⟨[("controller", "BP_PlayerController_C_1"), ("actor", "BP_Item_PaintTool_C_2")]⟩
    ⟨[("actor", "BP_Item_PaintTool_C_2"), ("b", "255"), ("g", "128"), ("r", "0"),
      ("a", "255")]⟩
    ⟨[("actor", "BP_Item_PaintTool_C_2"), ("materialIndex", "1")]⟩
    ⟨[("actor", "BP_Item_PaintTool_C_2"), ("materialAlpha", "5")]⟩
    (by decide) (by decide) (by decide) (by decide)

/-- C6: `Player.getTemplateBounds` returns `undefined` if any of its four chunk
dumps (template, MinBounds, MaxBounds, Center) is empty; otherwise it takes the
template name of the first template record, selects the MinBounds, MaxBounds
and Center records with that template name, and returns their coerced
`[x, y, z]` triples as `{minBound, maxBound, center}`, returning `undefined`
if any of the three is missing. -/
theorem getTemplateBounds_characterization {ε : Type} (p : PlayerObj ε) :
    ((p.omegga.chunk ("GetAll BP_PlayerController_C TEMP_BrickTemplate_Server Name=" ++
          p.controller) brickTemplatePatternSrc = [] ∨
      p.omegga.chunk "GetAll BrickBuildingTemplate MinBounds" minBoundsPatternSrc = [] ∨
      p.omegga.chunk "GetAll BrickBuildingTemplate MaxBounds" maxBoundsPatternSrc = [] ∨
      p.omegga.chunk "GetAll BrickBuildingTemplate Center" centerPatternSrc = []) →
      (Player.getTemplateBounds p).1 = none) ∧
    (∀ t0 rest mn mx c,
      p.omegga.chunk ("GetAll BP_PlayerController_C TEMP_BrickTemplate_Server Name=" ++
          p.controller) brickTemplatePatternSrc = t0 :: rest →
      (p.omegga.chunk "GetAll BrickBuildingTemplate MinBounds" minBoundsPatternSrc).find?
        (fun m => m.group "templateName" == t0.group "templateName") = some mn →
      (p.omegga.chunk "GetAll BrickBuildingTemplate MaxBounds" maxBoundsPatternSrc).find?
        (fun m => m.group "templateName" == t0.group "templateName") = some mx →
      (p.omegga.chunk "GetAll BrickBuildingTemplate Center" centerPatternSrc).find?
        (fun m => m.group "templateName" == t0.group "templateName") = some c →
      (Player.getTemplateBounds p).1 =
        some { minBound := [jsNumberOpt (mn.group "x"), jsNumberOpt (mn.group "y"),
                 jsNumberOpt (mn.group "z")],
               maxBound := [jsNumberOpt (mx.group "x"), jsNumberOpt (mx.group "y"),
                 jsNumberOpt (mx.group "z")],
               center := [jsNumberOpt (c.group "x"), jsNumberOpt (c.group "y"),
                 jsNumberOpt (c.group "z")] }) ∧
    (∀ t0 rest,
      p.omegga.chunk ("GetAll BP_PlayerController_C TEMP_BrickTemplate_Server Name=" ++
          p.controller) brickTemplatePatternSrc = t0 :: rest →
      ((p.omegga.chunk "GetAll BrickBuildingTemplate MinBounds" minBoundsPatternSrc).find?
          (fun m => m.group "templateName" == t0.group "templateName") = none ∨
       (p.omegga.chunk "GetAll BrickBuildingTemplate MaxBounds" maxBoundsPatternSrc).find?
          (fun m => m.group "templateName" == t0.group "templateName") = none ∨
       (p.omegga.chunk "GetAll BrickBuildingTemplate Center" centerPatternSrc).find?
          (fun m => m.group "templateName" == t0.group "templateName") = none) →
      (Player.getTemplateBounds p).1 = none) := by
  refine ⟨?_, ?_, ?_⟩
  · intro h
    unfold Player.getTemplateBounds
    dsimp only
    rcases h with h | h | h | h <;> simp [h]
  · intro t0 rest mn mx c h0 h1 h2 h3
    have hmn2 : (p.omegga.chunk "GetAll BrickBuildingTemplate MinBounds"
        minBoundsPatternSrc).isEmpty = false := by
      cases hl : p.omegga.chunk "GetAll BrickBuildingTemplate MinBounds" minBoundsPatternSrc with
      | nil => rw [hl] at h1; simp at h1
      | cons a as => simp
    have hmx2 : (p.omegga.chunk "GetAll BrickBuildingTemplate MaxBounds"
        maxBoundsPatternSrc).isEmpty = false := by
      cases hl : p.omegga.chunk "GetAll BrickBuildingTemplate MaxBounds" maxBoundsPatternSrc with
      | nil => rw [hl] at h2; simp at h2
      | cons a as => simp
    have hc2 : (p.omegga.chunk "GetAll BrickBuildingTemplate Center"
        centerPatternSrc).isEmpty = false := by
      cases hl : p.omegga.chunk "GetAll BrickBuildingTemplate Center" centerPatternSrc with
      | nil => rw [hl] at h3; simp at h3
      | cons a as => simp
    unfold Player.getTemplateBounds
    dsimp only
    rw [h0]
    simp only [List.isEmpty_cons, hmn2, hmx2, hc2, Bool.or_false, Bool.false_or,
      Bool.or_self, if_false, Bool.false_eq_true, List.head?_cons]
    rw [h1, h2, h3]
  · intro t0 rest h0 hor
    unfold Player.getTemplateBounds
    dsimp only
    rw [h0]
    split
    · rfl
    · simp only [List.head?_cons]
      rcases hor with h | h | h <;> rw [h] <;>
        rcases hf1 : (p.omegga.chunk "GetAll BrickBuildingTemplate MinBounds"
            minBoundsPatternSrc).find?
            (fun m => m.group "templateName" == t0.group "templateName") with _ | mn2 <;>
        rcases hf2 : (p.omegga.chunk "GetAll BrickBuildingTemplate MaxBounds"
            maxBoundsPatternSrc).find?
            (fun m => m.group "templateName" == t0.group "templateName") with _ | mx2 <;>
        rcases hf3 : (p.omegga.chunk "GetAll BrickBuildingTemplate Center"
            centerPatternSrc).find?
            (fun m => m.group "templateName" == t0.group "templateName") with _ | c2 <;>
        simp_all

/-- Example for C6: one template record and matching MinBounds, MaxBounds and
Center records produce the three coerced triples. -/
theorem getTemplateBounds_characterization_witness :
    (Player.getTemplateBounds
      (⟨⟨(), "h", ⟨[], ⟨"d", []⟩⟩, [], fun _ => [],
          fun cmd _ =>
            if cmd == "GetAll BrickBuildingTemplate MinBounds" then
              [⟨[("templateName", "BrickBuildingTemplate_3"), ("x", "0"), ("y", "0"),
                 ("z", "0")]⟩]
            else if cmd == "GetAll BrickBuildingTemplate MaxBounds" then
              [⟨[("templateName", "BrickBuildingTemplate_3"), ("x", "40"), ("y", "40"),
                 ("z", "40")]⟩]
            else if cmd == "GetAll BrickBuildingTemplate Center" then
              [⟨[("templateName", "BrickBuildingTemplate_3"), ("x", "20"), ("y", "20"),
                 ("z", "20")]⟩]
            else
              [⟨[("controller", "BP_PlayerController_C_1"),
                 ("templateName", "BrickBuildingTemplate_3")]⟩]⟩,
        "n", "i", "BP_PlayerController_C_1", "s"⟩ : PlayerObj Unit)).1 =
      some { minBound := [jsNumberOpt (some "0"), jsNumberOpt (some "0"),
               jsNumberOpt (some "0")],
             maxBound := [jsNumberOpt (some "40"), jsNumberOpt (some "40"),
               jsNumberOpt (some "40")],
             center := [jsNumberOpt (some "20"), jsNumberOpt (some "20"),
               jsNumberOpt (some "20")] } :=
  (getTemplateBounds_characterization _).2.1
    ⟨[("controller", "BP_PlayerController_C_1"),
      ("templateName", "BrickBuildingTemplate_3")]⟩ []
    ⟨[("templateName", "BrickBuildingTemplate_3"), ("x", "0"), ("y", "0"), ("z", "0")]⟩
    ⟨[("templateName", "BrickBuildingTemplate_3"), ("x", "40"), ("y", "40"), ("z", "40")]⟩
    ⟨[("templateName", "BrickBuildingTemplate_3"), ("x", "20"), ("y", "20"), ("z", "20")]⟩
    (by decide) (by decide) (by decide) (by decide)

/-- C7: every chunk exchange issued by `getGhostBrick`, `getPaint` and
`getTemplateBounds` designates the capture group named `index` as its
chunk-restart key (the `first` option), and every pattern passed to those
exchanges begins with the named capture group `index`. -/
theorem player_chunk_exchanges_use_index_key {ε : Type} (p : PlayerObj ε)
    (dm : List String) :
    (((Player.getGhostBrick p).2 ++ (Player.getPaint p dm).2 ++
        (Player.getTemplateBounds p).2).all
      (fun c => c.first == some "index" && beginsWithIndexGroup c.patternSrc)) = true := rfl

/-- C8: `Player.getRoles` (static and instance) always returns a frozen array —
empty when the saved role assignments have no entry for the player's id or the
entry has no roles field, otherwise that entry's roles — and
`Player.getPermissions` (static and instance) always returns a frozen object,
so callers cannot mutate either returned value. -/
theorem getRoles_getPermissions_frozen {ε : Type} (om : Omegga ε) (p : PlayerObj ε)
    (id : String) :
    (Player.getRoles om id).frozen = true ∧
    (PlayerObj.getRoles p).frozen = true ∧
    (Player.getPermissions om id).frozen = true ∧
    (PlayerObj.getPermissions p).frozen = true ∧
    (om.savedPlayerRoles.find? (fun kv => kv.1 == id) = none →
      (Player.getRoles om id).value = []) ∧
    (∀ entry, om.savedPlayerRoles.find? (fun kv => kv.1 == id) = some entry →
      entry.2.roles = none → (Player.getRoles om id).value = []) ∧
    (∀ entry rs, om.savedPlayerRoles.find? (fun kv => kv.1 == id) = some entry →
      entry.2.roles = some rs → (Player.getRoles om id).value = rs) := by
  refine ⟨rfl, rfl, ?_, ?_, ?_, ?_, ?_⟩
  · dsimp only [Player.getPermissions]
    split <;> rfl
  · dsimp only [PlayerObj.getPermissions, Player.getPermissions]
    split <;> rfl
  · intro h
    simp [Player.getRoles, getRolesRaw, objectFreeze, h]
  · intro entry h h2
    simp [Player.getRoles, getRolesRaw, objectFreeze, h, h2]
  · intro entry rs h h2
    simp [Player.getRoles, getRolesRaw, objectFreeze, h, h2]

/-- Example for C8: a saved role assignment with a roles field comes back
as-is, frozen, and the permissions object is frozen too. -/
theorem getRoles_getPermissions_frozen_witness :
    (Player.getRoles
      (⟨(), "h", ⟨[], ⟨"d", []⟩⟩, [("u", ⟨some ["Admin"]⟩)], fun _ => [],
        fun _ _ => []⟩ : Omegga Unit) "u").value = ["Admin"] ∧
    (Player.getRoles
      (⟨(), "h", ⟨[], ⟨"d", []⟩⟩, [("u", ⟨some ["Admin"]⟩)], fun _ => [],
        fun _ _ => []⟩ : Omegga Unit) "u").frozen = true ∧
    (Player.getPermissions
      (⟨(), "h", ⟨[], ⟨"d", []⟩⟩, [("u", ⟨some ["Admin"]⟩)], fun _ => [],
        fun _ _ => []⟩ : Omegga Unit) "u").frozen = true :=
  ⟨(getRoles_getPermissions_frozen
      (⟨(), "h", ⟨[], ⟨"d", []⟩⟩, [("u", ⟨some ["Admin"]⟩)], fun _ => [],
        fun _ _ => []⟩ : Omegga Unit)
      ⟨⟨(), "h", ⟨[], ⟨"d", []⟩⟩, [("u", ⟨some ["Admin"]⟩)], fun _ => [],
        fun _ _ => []⟩, "n", "u", "c", "s"⟩ "u").2.2.2.2.2.2
      ("u", ⟨some ["Admin"]⟩) ["Admin"] (by decide) rfl,
   (getRoles_getPermissions_frozen
      (⟨(), "h", ⟨[], ⟨"d", []⟩⟩, [("u", ⟨some ["Admin"]⟩)], fun _ => [],
        fun _ _ => []⟩ : Omegga Unit)
      ⟨⟨(), "h", ⟨[], ⟨"d", []⟩⟩, [("u", ⟨some ["Admin"]⟩)], fun _ => [],
        fun _ _ => []⟩, "n", "u", "c", "s"⟩ "u").1,
   (getRoles_getPermissions_frozen
      (⟨(), "h", ⟨[], ⟨"d", []⟩⟩, [("u", ⟨some ["Admin"]⟩)], fun _ => [],
        fun _ _ => []⟩ : Omegga Unit)
      ⟨⟨(), "h", ⟨[], ⟨"d", []⟩⟩, [("u", ⟨some ["Admin"]⟩)], fun _ => [],
        fun _ _ => []⟩, "n", "u", "c", "s"⟩ "u").2.2.1⟩

/-- C9: `Database.authUser` returns `null` whenever no user with the given
username exists or the stored user is banned — in those cases the result does
not depend on the bcrypt comparison at all, so the password is never consulted
— and for a stored, unbanned user it returns the stored record exactly when
the comparison of the supplied password against the stored hash succeeds, and
`null` when it fails. -/
theorem authUser_characterization (users : List User) (username password : String) :
    (users.find? (fun u => u.username == username) = none →
      ∀ compare, Database.authUser compare users username password = none) ∧
    (∀ user, users.find? (fun u => u.username == username) = some user →
      user.isBanned = true →
      ∀ compare, Database.authUser compare users username password = none) ∧
    (∀ user compare, users.find? (fun u => u.username == username) = some user →
      user.isBanned = false →
      ((Database.authUser compare users username password = some user ↔
          compare password user.hash = true) ∧
        (compare password user.hash = false →
          Database.authUser compare users username password = none))) := by
  refine ⟨?_, ?_, ?_⟩
  · intro h compare
    unfold Database.authUser
    rw [h]
  · intro user h hb compare
    unfold Database.authUser
    rw [h]
    simp [hb]
  · intro user compare h hb
    unfold Database.authUser
    rw [h]
    simp only [hb]
    constructor
    · constructor
      · intro hsome
        by_cases hc : compare password user.hash = true
        · exact hc
        · simp [hc] at hsome
      · intro hc
        simp [hc]
    · intro hc
      simp [hc]

/-- Example for C9: a missing username, a banned user, a correct password and a
wrong password, over a two-user store. -/
theorem authUser_characterization_witness :
    Database.authUser (fun pw h => pw == "pw" && h == "h1")
      [⟨"alice", "h1", false⟩, ⟨"bob", "h2", true⟩] "carol" "pw" = none ∧
    Database.authUser (fun pw h => pw == "pw" && h == "h1")
      [⟨"alice", "h1", false⟩, ⟨"bob", "h2", true⟩] "bob" "pw" = none ∧
    Database.authUser (fun pw h => pw == "pw" && h == "h1")
      [⟨"alice", "h1", false⟩, ⟨"bob", "h2", true⟩] "alice" "pw" =
      some ⟨"alice", "h1", false⟩ ∧
    Database.authUser (fun pw h => pw == "pw" && h == "h1")
      [⟨"alice", "h1", false⟩, ⟨"bob", "h2", true⟩] "alice" "bad" = none :=
  ⟨(authUser_characterization [⟨"alice", "h1", false⟩, ⟨"bob", "h2", true⟩]
      "carol" "pw").1 (by decide) _,
   (authUser_characterization [⟨"alice", "h1", false⟩, ⟨"bob", "h2", true⟩]
      "bob" "pw").2.1 ⟨"bob", "h2", true⟩ (by decide) rfl _,
   ((authUser_characterization [⟨"alice", "h1", false⟩, ⟨"bob", "h2", true⟩]
      "alice" "pw").2.2 ⟨"alice", "h1", false⟩ _ (by decide) rfl).1.mpr (by decide),
   ((authUser_characterization [⟨"alice", "h1", false⟩, ⟨"bob", "h2", true⟩]
      "alice" "bad").2.2 ⟨"alice", "h1", false⟩ _ (by decide) rfl).2 (by decide)⟩

/-- C10: `Database.updatePlayerPunchcard` changes exactly one cell of the
7-by-24 playerCount punchcard found for the current UTC month and year: the
cell at `[UTC day][UTC hour]` is increased by `numNewPlayers` (or set to
`numNewPlayers` on a freshly created 7-by-24 card whose other cells are
zero), every other cell keeps its previous value, and the card's `updated`
timestamp is set to the current time; `day < 7` and `hour < 24` reflect the
ranges of `getUTCDay()` and `getUTCHours()`. -/
theorem updatePlayerPunchcard_single_cell (store : List PunchcardDoc) (time : ℤ)
    (day hour : Nat) (month year : ℤ) (num : ℤ) (hday : day < 7) (hhour : hour < 24) :
    (findPunchcard store month year = none →
      (Database.updatePlayerPunchcard none time day hour month year num).created = time ∧
      (Database.updatePlayerPunchcard none time day hour month year num).updated = time ∧
      (Database.updatePlayerPunchcard none time day hour month year num).month = month ∧
      (Database.updatePlayerPunchcard none time day hour month year num).year = year ∧
      getCell (Database.updatePlayerPunchcard none time day hour month year num).punchcard
        day hour = num ∧
      (∀ d2 h2, ¬(d2 = day ∧ h2 = hour) →
        getCell (Database.updatePlayerPunchcard none time day hour month year num).punchcard
          d2 h2 = 0) ∧
      (Database.updatePlayerPunchcard none time day hour month year num).punchcard.length = 7 ∧
      (∀ d2, d2 < 7 →
        ((Database.updatePlayerPunchcard none time day hour month year
          num).punchcard[d2]?.getD []).length = 24)) ∧
    (∀ card, findPunchcard store month year = some card →
      card.punchcard.length = 7 →
      (Database.updatePlayerPunchcard (some card) time day hour month year num).created =
        card.created ∧
      (Database.updatePlayerPunchcard (some card) time day hour month year num).updated = time ∧
      (Database.updatePlayerPunchcard (some card) time day hour month year num).month =
        card.month ∧
      (Database.updatePlayerPunchcard (some card) time day hour month year num).year =
        card.year ∧
      (hour < (card.punchcard.getD day []).length →
        getCell (Database.updatePlayerPunchcard (some card) time day hour month year
            num).punchcard day hour =
          getCell card.punchcard day hour + num) ∧
      (∀ d2 h2, ¬(d2 = day ∧ h2 = hour) →
        getCell (Database.updatePlayerPunchcard (some card) time day hour month year
            num).punchcard d2 h2 = getCell card.punchcard d2 h2)) := by
  constructor
  · intro _
    refine ⟨rfl, rfl, rfl, rfl, ?_, ?_, ?_, ?_⟩
    · refine cell_set_here createPunchcard day hour num (createPunchcard_length ▸ hday) ?_
      rw [List.getD_eq_getElem?_getD, createPunchcard_row, if_pos hday, List.length_replicate]
      exact hhour
    · intro d2 h2 hne
      unfold Database.updatePlayerPunchcard
      rw [cell_set_elsewhere createPunchcard day hour num d2 h2 hne]
      exact getCell_createPunchcard d2 h2
    · unfold Database.updatePlayerPunchcard setCell
      rw [List.length_set, createPunchcard_length]
    · intro d2 hd2
      unfold Database.updatePlayerPunchcard
      rw [setCell_row_length createPunchcard day hour num (createPunchcard_length ▸ hday) d2]
      rw [createPunchcard_row, if_pos hd2, List.length_replicate]
  · intro card _ hlen
    refine ⟨rfl, rfl, rfl, rfl, ?_, ?_⟩
    · intro hh
      exact cell_set_here card.punchcard day hour _ (by omega) hh
    · intro d2 h2 hne
      exact cell_set_elsewhere card.punchcard day hour _ d2 h2 hne

/-- Witness for C10: updating a fresh month's card at day 3, hour 5 with 2 new
players stores 2 in that cell, leaves another cell at zero, stamps `updated`,
and keeps the 7-row shape. -/
theorem updatePlayerPunchcard_single_cell_witness :
    getCell (Database.updatePlayerPunchcard none 100 3 5 9 2026 2).punchcard 3 5 = 2 ∧
    getCell (Database.updatePlayerPunchcard none 100 3 5 9 2026 2).punchcard 0 0 = 0 ∧
    (Database.updatePlayerPunchcard none 100 3 5 9 2026 2).updated = 100 ∧
    (Database.updatePlayerPunchcard none 100 3 5 9 2026 2).punchcard.length = 7 := by
  have h := (updatePlayerPunchcard_single_cell [] 100 3 5 9 2026 2 (by decide) (by decide)).1 rfl
  exact ⟨h.2.2.2.2.1, h.2.2.2.2.2.1 0 0 (by decide), h.2.1, h.2.2.2.2.2.2.1⟩
